import Mathlib

/-!
Shallow embedding of the tabular presentation engine of
`src/components/Dashboard.tsx` (an ag-grid employee dashboard): the cell
renderers, the column value formatters, and the dynamic page-size
computation, together with theorems about their behaviour.

Modelling conventions:
* JavaScript numbers appearing as pixel heights, counts and field values
  are modelled as integers (`Nat`/`Int`); no property proved here depends
  on fractional values.
* A JavaScript value whose static type is `T | null` is modelled as
  `Option T` with `none` for `null`.
* A thrown JavaScript exception (e.g. a `TypeError` from a member call on
  `null`) is modelled with `Except String`.
* JSX output of a renderer is modelled by the text content it produces.
-/

namespace AgGridDashboard

/-- Employee record, embedding the `EmployeeData` interface of
`Dashboard.tsx` (lines 18-34). -/
structure EmployeeData where
  id : Int
  firstName : String
  lastName : String
  email : String
  department : String
  position : String
  salary : Int
  hireDate : String
  age : Int
  location : String
  performanceRating : Int
  projectsCompleted : Int
  isActive : Bool
  skills : List String
  manager : Option String

/-- Embedding of `IsActiveCellRenderer` (Dashboard.tsx lines 37-45): the
rendered text is `value ? "Active" : "Inactive"`. -/
def IsActiveCellRenderer (value : Bool) : String :=
  if value then "Active" else "Inactive"

/-- Embedding of the `isActive` column value formatter (line 164):
`params.value ? "Active" : "Inactive"`. -/
def isActiveValueFormatter (value : Bool) : String :=
  if value then "Active" else "Inactive"

/-- The constant `maxTags = 3` of `SkillsCellRenderer` (line 48). -/
def maxTags : Nat := 3

/-- Truncation applied to one skill tag (line 58):
`skill.length > 15 ? skill.substring(0, 15) + "..." : skill`. -/
def truncateSkill (skill : String) : String :=
  if skill.length > 15 then skill.take 15 ++ "..." else skill

/-- Embedding of `SkillsCellRenderer` (lines 47-72). The input is `none`
when the cell value is not an array (`Array.isArray` is false) and
`some l` for an array of skills. The result pairs the list of rendered
tag texts (the `value.slice(0, maxTags).map(...)` branch, or the single
`"No skills"` placeholder) with the optional `"+N more"` suffix text
rendered when `value.length > maxTags`. -/
def SkillsCellRenderer (value : Option (List String)) :
    List String × Option String :=
  (match value with
   | some l => if l.length > 0 then (l.take maxTags).map truncateSkill
               else ["No skills"]
   | none => ["No skills"],
   match value with
   | some l => if l.length > maxTags then
                 some ("+" ++ toString (l.length - maxTags) ++ " more")
               else none
   | none => none)

/-- Embedding of `ManagerCellRenderer` (lines 74-76): the rendered text is
`value !== null ? value : "None"`. -/
def ManagerCellRenderer (value : Option String) : String :=
  match value with
  | some s => s
  | none => "None"

/-- Embedding of the `manager` column value formatter (lines 185-186):
`params.value !== null ? params.value : "None"`. -/
def managerValueFormatter (value : Option String) : String :=
  match value with
  | some s => s
  | none => "None"

/-- A JavaScript value as the grid can hand it to a value formatter: the
declared field type is not enforced at the formatter boundary, so the
value may be a number, a string, a boolean, `null` or `undefined`.
Numeric payloads are modelled as integers. -/
inductive JsVal where
  | num (n : Int)
  | str (s : String)
  | bool (b : Bool)
  | null
  | undef
deriving DecidableEq

/-- Thousands grouping over the reversed digit list (least significant
digit first): a comma is inserted after every complete group of three
digits. Models the digit grouping of `Number.prototype.toLocaleString`
in the default locale. -/
def groupThousandsRev : List Char → Nat → List Char
  | [], _ => []
  | c :: rest, k =>
    if k = 3 then ',' :: c :: groupThousandsRev rest 1
    else c :: groupThousandsRev rest (k + 1)

/-- Rendering of an integer by `Number.prototype.toLocaleString` in the
default locale: decimal digits with thousands separators and a leading
minus sign for negative values. -/
def numToLocaleString (n : Int) : String :=
  let digitsRev := (toString n.natAbs).toList.reverse
  (if n < 0 then "-" else "") ++ String.mk (groupThousandsRev digitsRev 0).reverse

/-- Evaluation of `v.toLocaleString()` on a cell value `v` following
ECMAScript semantics: numbers format with thousands grouping; strings and
booleans have a `toLocaleString` (via `String.prototype` and
`Object.prototype`) that yields their ordinary string conversion; a
member call on `null` or `undefined` throws a TypeError. -/
def jsToLocaleString : JsVal → Except String String
  | .num n => .ok (numToLocaleString n)
  | .str s => .ok s
  | .bool b => .ok (if b then "true" else "false")
  | .null => .error "TypeError"
  | .undef => .error "TypeError"

/-- Embedding of the `salary` value formatter (line 124): the template
literal prefixes a dollar sign to `params.value.toLocaleString()`; the
member call itself may throw. -/
def salaryValueFormatter (value : JsVal) : Except String String :=
  (jsToLocaleString value).map (fun s => "$" ++ s)

/-- Evaluation of `v.toFixed(1)` following ECMAScript semantics: only
numbers have a `toFixed` method, so the call throws a TypeError on every
non-numeric value (including `null` and `undefined`); on an integer `n`
it yields the decimal digits of `n` followed by ".0". -/
def jsToFixed1 : JsVal → Except String String
  | .num n => .ok (toString n ++ ".0")
  | .str _ => .error "TypeError"
  | .bool _ => .error "TypeError"
  | .null => .error "TypeError"
  | .undef => .error "TypeError"

/-- Embedding of the `performanceRating` value formatter (line 150):
`params.value.toFixed(1)`. -/
def performanceRatingValueFormatter (value : JsVal) : Except String String :=
  jsToFixed1 value

/-- True exactly when the formatter call threw. -/
def isError : Except String String → Bool
  | .error _ => true
  | .ok _ => false

/-- Embedding of the `hireDate` value formatter (line 131):
`new Date(params.value).toLocaleDateString()`. The host environment's
date parsing (the `Date` constructor) is abstracted as `parse`, which
returns `none` when the string yields an invalid date, and its locale
short-date rendering as `fmtDate`; per ECMA-402, `toLocaleDateString` on
an invalid date returns the fixed string "Invalid Date" and does not
throw. -/
def hireDateValueFormatter (parse : String → Option Int)
    (fmtDate : Int → String) (value : String) : String :=
  match parse value with
  | some t => fmtDate t
  | none => "Invalid Date"

/-- Environment read by `calculateDynamicPageSize`: whether
`gridRef.current?.api` is available, the container's measured
`clientHeight` (`none` when the container ref is null or the height is
unmeasurable), and the row height reported by
`getSizesForCurrentTheme()` (`none` when absent). -/
structure GridEnv where
  apiAvailable : Bool
  containerClientHeight : Option Nat
  themeRowHeight : Option Nat

/-- JavaScript `x || d` on an optional numeric reading: a missing value
and the falsy value 0 are both replaced by the default `d`. -/
def jsOrDefault (measured : Option Nat) (d : Nat) : Nat :=
  match measured with
  | some v => if v = 0 then d else v
  | none => d

/-- The local `containerHeight` (line 222):
`containerRef.current?.clientHeight || 400`. -/
def containerHeightOf (env : GridEnv) : Nat :=
  jsOrDefault env.containerClientHeight 400

/-- The local `rowHeight` (lines 223-224):
`gridRef.current.api.getSizesForCurrentTheme().rowHeight || 30`. -/
def rowHeightOf (env : GridEnv) : Nat :=
  jsOrDefault env.themeRowHeight 30

/-- The constant `headerHeight = 50` (line 225). -/
def headerHeightConst : Int := 50

/-- The page-size arithmetic of lines 226-227:
`availableHeight = containerHeight - headerHeight` and
`newPageSize = Math.max(1, Math.floor(availableHeight / rowHeight))`.
`Math.floor` of the exact quotient of integers is floor division,
`Int.fdiv`. -/
def newPageSize (containerHeight rowHeight headerHeight : Int) : Int :=
  let availableHeight := containerHeight - headerHeight
  max 1 (Int.fdiv availableHeight rowHeight)

/-- Embedding of `calculateDynamicPageSize` (lines 219-231): when the grid
API is available the page size is computed from the measured heights (in
the source the result is bound to the local `newPageSize` and not used
further); when the API is unavailable nothing is computed. -/
def calculateDynamicPageSize (env : GridEnv) : Option Int :=
  if env.apiAvailable then
    some (newPageSize (containerHeightOf env) (rowHeightOf env) headerHeightConst)
  else
    none

/-- The pagination-related props passed to `AgGridReact`
(lines 244-257). Field order: pagination, paginationPageSize,
paginationPageSizeSelector, animateRows, enableCellTextSelection. -/
structure AgGridReactProps where
  pagination : Bool
  paginationPageSize : Nat
  paginationPageSizeSelector : List Nat
  animateRows : Bool
  enableCellTextSelection : Bool

/-- The concrete props of the Dashboard component (lines 250-255):
pagination enabled, page size 10, selector [10, 20, 50, 100], animated
rows, cell text selection. -/
def dashboardGridProps : AgGridReactProps :=
  ⟨true, 10, [10, 20, 50, 100], true, true⟩

/-- Component state of `Dashboard`: the single `useState`, holding the
row-data snapshot (no setter is ever exposed or called). -/
structure DashboardState where
  rowData : List EmployeeData

/-- Running `calculateDynamicPageSize` as the component observes it: the
body (lines 220-230) reads the environment, binds the computed value to a
local and logs; it calls no state setter and no grid API mutator, so the
component state and the grid props are unchanged next to the computed
value. -/
def calculateDynamicPageSizeRun (env : GridEnv) (s : DashboardState)
    (props : AgGridReactProps) : DashboardState × AgGridReactProps × Option Int :=
  (s, props, calculateDynamicPageSize env)

theorem fdiv_nonpos_of_nonpos {a b : Int} (hb : 0 < b) (ha : a ≤ 0) :
    a.fdiv b ≤ 0 := by
  rw [Int.fdiv_eq_ediv _ (le_of_lt hb)]
  have h1 : a / b < 1 := (Int.ediv_lt_iff_lt_mul hb).mpr (by linarith)
  omega

theorem fdiv_le_one_of_le {a b : Int} (hb : 0 < b) (hab : a ≤ b) :
    a.fdiv b ≤ 1 := by
  rw [Int.fdiv_eq_ediv _ (le_of_lt hb)]
  have h1 : a / b < 2 := (Int.ediv_lt_iff_lt_mul hb).mpr (by linarith)
  omega

/-- C1: for all positive container height h, row height r and header
height hdr, the embedded page-size computation equals
max(1, floor((h - hdr) / r)); it is exactly 1 whenever h ≤ hdr or the
quotient (h - hdr) / r is at most 1; it is never below 1; and with the
constant header height 50 this is exactly the value
calculateDynamicPageSize produces whenever the grid API is available. -/
theorem C1_dynamic_page_size (h r hdr : Int) (hh : 0 < h) (hr : 0 < r)
    (hhdr : 0 < hdr) :
    newPageSize h r hdr = max 1 ((h - hdr).fdiv r)
    ∧ (h ≤ hdr → newPageSize h r hdr = 1)
    ∧ (h - hdr ≤ r → newPageSize h r hdr = 1)
    ∧ 1 ≤ newPageSize h r hdr
    ∧ ∀ env : GridEnv, env.apiAvailable = true →
        calculateDynamicPageSize env =
          some (newPageSize (containerHeightOf env) (rowHeightOf env) 50) := by
  refine ⟨rfl, ?_, ?_, le_max_left 1 _, ?_⟩
  · intro hle
    have h1 : (h - hdr).fdiv r ≤ 0 := fdiv_nonpos_of_nonpos hr (by linarith)
    show max 1 ((h - hdr).fdiv r) = 1
    exact max_eq_left (by linarith)
  · intro hle
    have h1 : (h - hdr).fdiv r ≤ 1 := fdiv_le_one_of_le hr hle
    show max 1 ((h - hdr).fdiv r) = 1
    exact max_eq_left h1
  · intro env henv
    simp [calculateDynamicPageSize, henv, headerHeightConst]

/-- Witness for C1 at the spec's concrete scenario
containerHeightPx = 500, rowHeightPx = 40, headerHeightPx = 50:
the formula applies, the result is at least 1, and it evaluates to 11. -/
theorem C1_witness :
    newPageSize 500 40 50 = max 1 ((500 - 50 : Int).fdiv 40)
    ∧ 1 ≤ newPageSize 500 40 50
    ∧ newPageSize 500 40 50 = 11 :=
  ⟨(C1_dynamic_page_size 500 40 50 (by decide) (by decide) (by decide)).1,
   (C1_dynamic_page_size 500 40 50 (by decide) (by decide) (by decide)).2.2.2.1,
   by decide⟩

/-- C2: the computed page size is never applied back to the pagination
control: running calculateDynamicPageSize leaves the component state and
the grid props unchanged for every environment, and the configured
paginationPageSize of the grid is 10. -/
theorem C2_page_size_not_applied (env : GridEnv) (s : DashboardState)
    (props : AgGridReactProps) :
    (calculateDynamicPageSizeRun env s props).1 = s
    ∧ (calculateDynamicPageSizeRun env s props).2.1 = props
    ∧ dashboardGridProps.paginationPageSize = 10 :=
  ⟨rfl, rfl, rfl⟩

/-- C3: the skills renderer outputs exactly the placeholder on a
non-array or empty input; with 1 to 3 skills every entry appears (entries
of at most 15 characters verbatim, longer ones as their first 15
characters plus an ellipsis) and no suffix; with more than 3 skills
exactly 3 tags appear, followed by a "+N more" suffix with
N = length - 3. -/
theorem C3_skills_renderer (value : Option (List String)) :
    ((value = none ∨ value = some []) →
        SkillsCellRenderer value = (["No skills"], none))
    ∧ (∀ l, value = some l → 0 < l.length → l.length ≤ 3 →
        (SkillsCellRenderer value).1 = l.map truncateSkill
        ∧ (SkillsCellRenderer value).2 = none)
    ∧ (∀ l, value = some l → 3 < l.length →
        (SkillsCellRenderer value).1 = (l.take 3).map truncateSkill
        ∧ (SkillsCellRenderer value).1.length = 3
        ∧ (SkillsCellRenderer value).2 =
            some ("+" ++ toString (l.length - 3) ++ " more"))
    ∧ ∀ s : String, (s.length ≤ 15 → truncateSkill s = s)
        ∧ (15 < s.length → truncateSkill s = s.take 15 ++ "...") := by
  refine ⟨?_, ?_, ?_, ?_⟩
  · rintro (rfl | rfl) <;> rfl
  · rintro l rfl h0 h3
    constructor
    · show (if l.length > 0 then (l.take maxTags).map truncateSkill
            else ["No skills"]) = l.map truncateSkill
      rw [if_pos h0, maxTags, List.take_of_length_le h3]
    · show (if l.length > maxTags then
              some ("+" ++ toString (l.length - maxTags) ++ " more")
            else none) = none
      rw [if_neg]
      rw [maxTags]
      omega
  · rintro l rfl h3
    refine ⟨?_, ?_, ?_⟩
    · show (if l.length > 0 then (l.take maxTags).map truncateSkill
            else ["No skills"]) = (l.take 3).map truncateSkill
      rw [if_pos (by omega), maxTags]
    · show (if l.length > 0 then (l.take maxTags).map truncateSkill
            else ["No skills"]).length = 3
      rw [if_pos (by omega), List.length_map, List.length_take, maxTags]
      omega
    · show (if l.length > maxTags then
              some ("+" ++ toString (l.length - maxTags) ++ " more")
            else none) = some ("+" ++ toString (l.length - 3) ++ " more")
      rw [maxTags, if_pos h3]
  · intro s
    constructor
    · intro hle
      rw [truncateSkill, if_neg (by omega)]
    · intro hgt
      rw [truncateSkill, if_pos (by omega)]

/-- Witness for C3: the empty skill list renders the placeholder, and a
singleton short skill renders verbatim with no suffix. -/
theorem C3_witness :
    SkillsCellRenderer (some []) = (["No skills"], none)
    ∧ (SkillsCellRenderer (some ["SQL"])).1 = ["SQL"]
    ∧ (SkillsCellRenderer (some ["SQL"])).2 = none :=
  ⟨(C3_skills_renderer (some [])).1 (Or.inr rfl),
   by
    have h := (C3_skills_renderer (some ["SQL"])).2.1 ["SQL"] rfl
      (by decide) (by decide)
    exact h.1.trans (by decide),
   ((C3_skills_renderer (some ["SQL"])).2.1 ["SQL"] rfl
      (by decide) (by decide)).2⟩

/-- C4 as stated is false: on the input
["Python Programming", "SQL", "Leadership", "Docker"] the first rendered
tag is the first 15 characters "Python Programm" plus the ellipsis, not
"Python Programmin...". -/
theorem C4_counterexample :
    SkillsCellRenderer
        (some ["Python Programming", "SQL", "Leadership", "Docker"])
      ≠ (["Python Programmin...", "SQL", "Leadership"], some "+1 more") := by
  decide

/-- C4 amended: on the input
["Python Programming", "SQL", "Leadership", "Docker"] the renderer yields
exactly the three tags "Python Programm..." (first 15 characters plus the
ellipsis marker), "SQL" and "Leadership", followed by the suffix
"+1 more". -/
theorem C4_amended_concrete_skills :
    SkillsCellRenderer
        (some ["Python Programming", "SQL", "Leadership", "Docker"])
      = (["Python Programm...", "SQL", "Leadership"], some "+1 more") := by
  decide

/-- C5: the manager renderer and the manager value formatter yield the
literal "None" on an absent value and every string unchanged. -/
theorem C5_manager_renderer (s : String) :
    ManagerCellRenderer none = "None"
    ∧ ManagerCellRenderer (some s) = s
    ∧ managerValueFormatter none = "None"
    ∧ managerValueFormatter (some s) = s :=
  ⟨rfl, rfl, rfl, rfl⟩

/-- C6 as stated is false: invoked on a null field value, the salary
formatter evaluates a member call on null and throws a TypeError instead
of falling back, and so does the rating formatter. -/
theorem C6_counterexample :
    salaryValueFormatter JsVal.null = Except.error "TypeError"
    ∧ performanceRatingValueFormatter JsVal.null = Except.error "TypeError" :=
  ⟨rfl, rfl⟩

/-- C6 amended: the salary formatter throws exactly on null and undefined
values (on every other value, numeric or not, it falls back to the
value's generic string conversion prefixed with the currency sign), while
the rating formatter succeeds exactly on numeric values and throws on
every non-numeric value, null and undefined included. -/
theorem C6_amended_formatters (v : JsVal) :
    (isError (salaryValueFormatter v) = true ↔
        v = JsVal.null ∨ v = JsVal.undef)
    ∧ (isError (performanceRatingValueFormatter v) = false ↔
        ∃ n, v = JsVal.num n)
    ∧ (∀ n, v = JsVal.num n →
        salaryValueFormatter v = Except.ok ("$" ++ numToLocaleString n)
        ∧ performanceRatingValueFormatter v = Except.ok (toString n ++ ".0"))
    ∧ (∀ s, v = JsVal.str s →
        salaryValueFormatter v = Except.ok ("$" ++ s)) := by
  cases v <;>
    simp [salaryValueFormatter, performanceRatingValueFormatter,
      jsToLocaleString, jsToFixed1, isError, Except.map]

/-- Witness for C6 amended: at the numeric value 50000 the salary
formatter succeeds with the grouped rendering "$50,000" and the rating
formatter succeeds with "50000.0". -/
theorem C6_witness :
    salaryValueFormatter (JsVal.num 50000) = Except.ok "$50,000"
    ∧ performanceRatingValueFormatter (JsVal.num 50000) =
        Except.ok "50000.0" :=
  ⟨(((C6_amended_formatters (JsVal.num 50000)).2.2.1 50000 rfl).1).trans
      (congrArg Except.ok (by decide)),
   (((C6_amended_formatters (JsVal.num 50000)).2.2.1 50000 rfl).2).trans
      (congrArg Except.ok (by decide))⟩

/-- C7 as stated is false: in a host environment where "not-a-date" does
not parse, the hireDate formatter renders the fixed string
"Invalid Date", not the original string unchanged. -/
theorem C7_counterexample :
    hireDateValueFormatter (fun _ => none) (fun _ => "") "not-a-date"
      ≠ "not-a-date" := by
  decide

/-- C7 amended: for every input string, a parsable date string renders
through the locale short-date rendering, and an unparsable string renders
as the fixed string "Invalid Date" rather than throwing or echoing the
input. -/
theorem C7_amended_hire_date (parse : String → Option Int)
    (fmtDate : Int → String) (s : String) :
    (∀ t, parse s = some t →
        hireDateValueFormatter parse fmtDate s = fmtDate t)
    ∧ (parse s = none →
        hireDateValueFormatter parse fmtDate s = "Invalid Date") := by
  constructor
  · intro t ht
    simp [hireDateValueFormatter, ht]
  · intro hn
    simp [hireDateValueFormatter, hn]

/-- Witness for C7 amended: an environment that rejects "x" renders it as
"Invalid Date". -/
theorem C7_witness :
    hireDateValueFormatter (fun _ => none) (fun _ => "") "x" = "Invalid Date" :=
  (C7_amended_hire_date (fun _ => none) (fun _ => "") "x").2 rfl

/-- C8: for every boolean, the isActive renderer produces exactly one of
the two fixed strings, "Active" exactly on true and "Inactive" exactly on
false, and the isActive value formatter agrees with it. -/
theorem C8_is_active_renderer (b : Bool) :
    (IsActiveCellRenderer b = "Active" ∨ IsActiveCellRenderer b = "Inactive")
    ∧ (IsActiveCellRenderer b = "Active" ↔ b = true)
    ∧ (IsActiveCellRenderer b = "Inactive" ↔ b = false)
    ∧ isActiveValueFormatter b = IsActiveCellRenderer b := by
  cases b <;> decide

/-- C9: the page-size computation is deterministic: two invocations on
identical environments yield identical results. -/
theorem C9_deterministic (env1 env2 : GridEnv) (h : env1 = env2) :
    calculateDynamicPageSize env1 = calculateDynamicPageSize env2 := by
  rw [h]

/-- Witness for C9 at a concrete environment. -/
theorem C9_witness :
    calculateDynamicPageSize ⟨true, some 500, some 40⟩ =
      calculateDynamicPageSize ⟨true, some 500, some 40⟩ :=
  C9_deterministic ⟨true, some 500, some 40⟩ ⟨true, some 500, some 40⟩ rfl

/-- C10: the computation is division-safe in every environment: a missing
or zero measured container height falls back to 400, a missing or zero
reported row height falls back to 30, the divisor is strictly positive,
and when the grid API is available the computed page size exists and is
at least 1; when the API is unavailable nothing is computed. -/
theorem C10_division_safe (env : GridEnv) :
    (env.apiAvailable = false → calculateDynamicPageSize env = none)
    ∧ ((env.containerClientHeight = none ∨ env.containerClientHeight = some 0)
        → containerHeightOf env = 400)
    ∧ ((env.themeRowHeight = none ∨ env.themeRowHeight = some 0)
        → rowHeightOf env = 30)
    ∧ 0 < rowHeightOf env
    ∧ (env.apiAvailable = true →
        ∃ p, calculateDynamicPageSize env = some p ∧ 1 ≤ p) := by
  refine ⟨?_, ?_, ?_, ?_, ?_⟩
  · intro hna
    simp [calculateDynamicPageSize, hna]
  · rintro (hc | hc) <;> simp [containerHeightOf, hc, jsOrDefault]
  · rintro (hr | hr) <;> simp [rowHeightOf, hr, jsOrDefault]
  · show 0 < jsOrDefault env.themeRowHeight 30
    cases h : env.themeRowHeight with
    | none => simp [jsOrDefault]
    | some v =>
      by_cases hv : v = 0 <;> simp [jsOrDefault, hv]
      omega
  · intro ha
    refine ⟨newPageSize (containerHeightOf env) (rowHeightOf env)
      headerHeightConst, by simp [calculateDynamicPageSize, ha], ?_⟩
    exact le_max_left 1 _

/-- Witness for C10: with the API unavailable nothing is computed; with
the API available and no measurements, both fallbacks apply. -/
theorem C10_witness :
    calculateDynamicPageSize ⟨false, none, none⟩ = none
    ∧ containerHeightOf ⟨true, none, none⟩ = 400
    ∧ rowHeightOf ⟨true, some 500, some 0⟩ = 30 :=
  ⟨(C10_division_safe ⟨false, none, none⟩).1 rfl,
   (C10_division_safe ⟨true, none, none⟩).2.1 (Or.inl rfl),
   (C10_division_safe ⟨true, some 500, some 0⟩).2.2.1 (Or.inr rfl)⟩

end AgGridDashboard
